import Mathlib

/-!
Verification of the PartyFlow ticketing core: a shallow embedding of the
inventory / checkout / fulfillment flow from `src/core/db_manager.py`,
`src/main.py` and `src/bot.py`, together with theorems settling the spec's
claims about capacity accounting, checkout errors, fulfillment and the
purchase dialogue.
-/

namespace PartyFlow

/-- An event row of the `events` table:
`events(id, name, date, location, price, total_tickets, is_active)`. -/
structure Event where
  id : Nat
  name : String
  date : String
  location : String
  price : Nat
  total_tickets : Nat
  is_active : Bool
deriving DecidableEq, Repr

/-- A ticket row of the `tickets` table:
`tickets(id, event_id, user_id, user_name, phone_number)`
(the purchase timestamp column is not modelled; no claim mentions it). -/
structure Ticket where
  id : Nat
  event_id : Nat
  user_id : Nat
  user_name : String
  phone_number : String
deriving DecidableEq, Repr

/-- The sqlite database: the two tables plus their AUTOINCREMENT counters
(sqlite row ids start at 1). -/
structure DBState where
  events : List Event
  tickets : List Ticket
  nextEventId : Nat
  nextTicketId : Nat
deriving DecidableEq, Repr

/-- The freshly created database (`create_tables` on a new file). -/
def initDB : DBState := ⟨[], [], 1, 1⟩

/-- Embeds `db_manager.get_event_by_id`: `SELECT * FROM events WHERE id = ?`.
Note: no `is_active` filter — archived events are returned too. -/
def get_event_by_id (db : DBState) (event_id : Nat) : Option Event :=
  db.events.find? (fun e => e.id == event_id)

/-- Embeds `db_manager.get_tickets_sold`:
`SELECT COUNT(*) FROM tickets WHERE event_id = ?`. -/
def get_tickets_sold (db : DBState) (event_id : Nat) : Nat :=
  (db.tickets.filter (fun t => t.event_id == event_id)).length

/-- Embeds `db_manager.add_event`: `INSERT INTO events (...) VALUES (..., 1)` —
a fresh row id, `is_active = 1`. -/
def add_event (db : DBState) (name date location : String)
    (price total_tickets : Nat) : DBState :=
  { db with
    events := db.events ++ [⟨db.nextEventId, name, date, location, price, total_tickets, true⟩],
    nextEventId := db.nextEventId + 1 }

/-- Embeds `db_manager.archive_event`: `UPDATE events SET is_active = 0 WHERE id = ?`. -/
def archive_event (db : DBState) (event_id : Nat) : DBState :=
  { db with
    events := db.events.map (fun e => if e.id == event_id then { e with is_active := false } else e) }

/-- Embeds `db_manager.restore_event`: `UPDATE events SET is_active = 1 WHERE id = ?`. -/
def restore_event (db : DBState) (event_id : Nat) : DBState :=
  { db with
    events := db.events.map (fun e => if e.id == event_id then { e with is_active := true } else e) }

/-- What `db_manager.add_ticket` returns: the new row id
(`cursor.lastrowid`), or Python `False` when the insert raised. -/
inductive AddTicketResult where
  | rowId (n : Nat)
  | dbFalse
deriving DecidableEq, Repr

/-- Embeds `db_manager.add_ticket`: inserts the ticket and returns its row id; the
whole body is wrapped in `try/except`, so if the database operation raises
(`dbRaises`), nothing is inserted and Python `False` is returned instead of
propagating the exception. -/
def add_ticket (db : DBState) (event_id user_id : Nat)
    (user_name phone_number : String) (dbRaises : Bool) :
    AddTicketResult × DBState :=
  if dbRaises then (.dbFalse, db)
  else
    (.rowId db.nextTicketId,
      { db with
        tickets := db.tickets ++ [⟨db.nextTicketId, event_id, user_id, user_name, phone_number⟩],
        nextTicketId := db.nextTicketId + 1 })

/-- The body of `main.create_checkout_session`'s request (`TicketRequest`
pydantic model); the same five fields are stored verbatim as the Stripe
session metadata. -/
structure TicketRequest where
  event_id : Nat
  user_name : String
  user_id : Nat
  phone_number : String
  quantity : Nat
deriving DecidableEq, Repr

/-- Outcome of `main.create_checkout_session`. -/
inductive CheckoutResult where
  /-- HTTP 200: a Stripe checkout session was created carrying this metadata. -/
  | ok (meta : TicketRequest)
  /-- HTTP 404 `Event not found`. -/
  | notFound
  /-- HTTP 400 `Not enough tickets left!`. -/
  | oversold
deriving DecidableEq, Repr

/-- Embeds `main.create_checkout_session`: look the event up (no active-flag
check), reject with 404 when missing, reject with 400 when
`sold_count + quantity > total_tickets`, otherwise create the Stripe
session with the request's fields as metadata. -/
def create_checkout_session (db : DBState) (ticket : TicketRequest) : CheckoutResult :=
  match get_event_by_id db ticket.event_id with
  | none => .notFound
  | some event =>
    if get_tickets_sold db ticket.event_id + ticket.quantity > event.total_tickets then
      .oversold
    else
      .ok ticket

/-- Stripe's `payment_status` on a checkout session. -/
inductive PaymentStatus where
  | paid
  | unpaid
  | no_payment_required
deriving DecidableEq, Repr

/-- A Stripe checkout session as `main.payment_success` retrieves it:
its metadata and its payment status. -/
structure StripeSession where
  meta : TicketRequest
  payment_status : PaymentStatus
deriving DecidableEq, Repr

/-- One QR-code message sent to the buyer over Telegram. -/
structure Artifact where
  chat_id : Nat
  caption : String
deriving DecidableEq, Repr

/-- How the f-string `f"Ticket ID: #{ticket_id}"` renders `add_ticket`'s
return value: the row id's digits, or the string `False`. -/
def ticketIdStr : AddTicketResult → String
  | .rowId n => toString n
  | .dbFalse => "False"

/-- The caption built in `main.payment_success` for ticket `i` of
`quantity`. -/
def mkCaption (i quantity : Nat) (eventName tid : String) : String :=
  "🎉 Ticket " ++ toString (i + 1) ++ "/" ++ toString quantity ++ " Confirmed!\n"
    ++ "Event: " ++ eventName ++ "\n"
    ++ "Ticket ID: #" ++ tid ++ "\n\n"
    ++ "Show this QR code at the entrance."

/-- The `for i in range(quantity)` loop of `main.payment_success`: each
iteration calls `add_ticket` and then builds/sends the QR artifact. When
the event lookup returned `None`, `event['name']` raises on the first
iteration — after that iteration's `add_ticket` already ran — and the
outer `except` aborts the loop. -/
def fulfillLoop (meta : TicketRequest) (ev : Option Event) (dbRaises : Nat → Bool) :
    Nat → Nat → DBState → List Artifact → DBState × List Artifact
  | _, 0, db, acc => (db, acc)
  | i, n + 1, db, acc =>
    let r := add_ticket db meta.event_id meta.user_id meta.user_name meta.phone_number (dbRaises i)
    match ev with
    | none => (r.2, acc)
    | some e =>
      fulfillLoop meta ev dbRaises (i + 1) n r.2
        (acc ++ [⟨meta.user_id, mkCaption i meta.quantity e.name (ticketIdStr r.1)⟩])

/-- Embeds `main.payment_success`: retrieve the session; if `payment_status` is
`paid`, run the issuance loop for the stored quantity (with NO capacity
re-check and NO consumption of the session); otherwise return
"Payment Failed or Pending." having touched nothing. Returns the new
database and the artifacts sent. -/
def payment_success (db : DBState) (s : StripeSession) (dbRaises : Nat → Bool) :
    DBState × List Artifact :=
  if s.payment_status = .paid then
    fulfillLoop s.meta (get_event_by_id db s.meta.event_id) dbRaises 0 s.meta.quantity db []
  else
    (db, [])

/-- The whole backend's mutable state: the database plus the Stripe
checkout sessions created so far (a session's `session_id` is its index;
Stripe, not this system, stores them). -/
structure SysState where
  db : DBState
  sessions : List StripeSession
deriving DecidableEq, Repr

/-- The system before any request. -/
def initSys : SysState := ⟨initDB, []⟩

/-- One observable transition of the backend: the admin routes that touch
events, a successful `create_checkout_session` (a failing one changes no
state), the external buyer completing payment on a session, and a
`payment_success` callback on any session id the client supplies. The code
never deletes or marks a session consumed, so `fulfillSession` leaves
`sessions` unchanged and can recur. -/
inductive Step : SysState → SysState → Prop where
  | addEvent (st : SysState) (name date location : String) (price cap : Nat) :
      Step st ⟨add_event st.db name date location price cap, st.sessions⟩
  | archiveEvent (st : SysState) (event_id : Nat) :
      Step st ⟨archive_event st.db event_id, st.sessions⟩
  | restoreEvent (st : SysState) (event_id : Nat) :
      Step st ⟨restore_event st.db event_id, st.sessions⟩
  | checkoutOk (st : SysState) (req : TicketRequest)
      (h : create_checkout_session st.db req = .ok req) :
      Step st ⟨st.db, st.sessions ++ [⟨req, .unpaid⟩]⟩
  | paySession (st : SysState) (i : Nat) (h : i < st.sessions.length) :
      Step st ⟨st.db, st.sessions.set i ⟨(st.sessions.get ⟨i, h⟩).meta, .paid⟩⟩
  | fulfillSession (st : SysState) (i : Nat) (h : i < st.sessions.length)
      (dbRaises : Nat → Bool) :
      Step st ⟨(payment_success st.db (st.sessions.get ⟨i, h⟩) dbRaises).1, st.sessions⟩

/-- States the running system can actually be in. -/
def Reachable (st : SysState) : Prop := Relation.ReflTransGen Step initSys st

/-- The per-event row `main.show_dashboard` computes:
`sold = get_tickets_sold(id)` and `remaining = total_tickets - sold`
(plain integer subtraction, no clamping). -/
structure DashRow where
  sold : Nat
  remaining : Int
deriving DecidableEq, Repr

/-- The dashboard's processing of one event row in `main.show_dashboard`. -/
def dashRow (db : DBState) (e : Event) : DashRow :=
  { sold := get_tickets_sold db e.id,
    remaining := (e.total_tickets : Int) - (get_tickets_sold db e.id : Int) }

/-! Concrete states for the oversell trace: one event of capacity 1, two
checkout sessions racing for it, both paid, both fulfilled. -/

/-- A capacity-1 event as `add_event` creates it. -/
def ev1 : Event := ⟨1, "Party", "2026-01-01", "TLV", 10, 1, true⟩

/-- Alice's checkout request for one ticket to event 1. -/
def reqA : TicketRequest := ⟨1, "Alice", 11, "+972501234567", 1⟩

/-- Bob's checkout request for one ticket to event 1. -/
def reqB : TicketRequest := ⟨1, "Bob", 12, "+972521234567", 1⟩

/-- Trace state: event added. -/
def sysA : SysState := ⟨⟨[ev1], [], 2, 1⟩, []⟩

/-- Trace state: Alice's checkout session created. -/
def sysB : SysState := ⟨sysA.db, [⟨reqA, .unpaid⟩]⟩

/-- Trace state: Bob's checkout session created too (the capacity check
passed for both: no ticket exists yet). -/
def sysC : SysState := ⟨sysA.db, [⟨reqA, .unpaid⟩, ⟨reqB, .unpaid⟩]⟩

/-- Trace state: Alice paid. -/
def sysD : SysState := ⟨sysA.db, [⟨reqA, .paid⟩, ⟨reqB, .unpaid⟩]⟩

/-- Trace state: Bob paid. -/
def sysE : SysState := ⟨sysA.db, [⟨reqA, .paid⟩, ⟨reqB, .paid⟩]⟩

/-- Trace state: Alice's callback fulfilled — one ticket issued. -/
def sysF : SysState :=
  ⟨⟨[ev1], [⟨1, 1, 11, "Alice", "+972501234567"⟩], 2, 2⟩, sysE.sessions⟩

/-- Trace state: Bob's callback fulfilled as well — two tickets now exist
for the capacity-1 event. -/
def sysG : SysState :=
  ⟨⟨[ev1], [⟨1, 1, 11, "Alice", "+972501234567"⟩, ⟨2, 1, 12, "Bob", "+972521234567"⟩], 2, 3⟩,
    sysE.sessions⟩

/-! The purchase-dialogue side (`src/bot.py`). -/

/-- The per-purchaser entry of the module-level `user_data` dict, as
`finalize_order` reads it: `event_id` and `name` are accessed directly,
`quantity` through `.get('quantity', 1)`. -/
structure BotSession where
  event_id : Nat
  quantity : Option Nat
  name : String
deriving DecidableEq, Repr

/-- The `user_data` dict (keys are unique chat ids). -/
def SessionMap := List (Nat × BotSession)

/-- Dict lookup `user_data.get(chat_id)`. -/
def lookupSession (m : SessionMap) (chat_id : Nat) : Option BotSession :=
  (List.find? (fun p => p.1 == chat_id) m).map Prod.snd

/-- Dict removal `user_data.pop(chat_id, None)`. -/
def popSession (m : SessionMap) (chat_id : Nat) : SessionMap :=
  List.filter (fun p => p.1 != chat_id) m

/-- What the backend call inside `finalize_order` came back with: an HTTP
status code, or `requests.post` raising (connection error). -/
inductive ReqOutcome where
  | status (code : Nat)
  | connFail
deriving DecidableEq, Repr

/-- The messages `finalize_order` can send the purchaser. -/
inductive BotMsg where
  | paymentLink
  | notEnoughTickets
  | genericError
  | connectionError
  | sessionExpired
deriving DecidableEq, Repr

/-- The HTTP status each `create_checkout_session` outcome produces. -/
def httpStatus : CheckoutResult → Nat
  | .ok _ => 200
  | .notFound => 404
  | .oversold => 400

/-- Embeds `finalize_order`'s response handling: 200 shows the payment link,
400 shows the dedicated "not enough tickets" message, anything else the
generic error. -/
def botReplyForStatus (code : Nat) : BotMsg :=
  if code == 200 then .paymentLink
  else if code == 400 then .notEnoughTickets
  else .genericError

/-- Embeds `bot.finalize_order`: look the session up (missing → "Session expired",
nothing sent); otherwise build the payload from the session tuple (quantity
defaulting to 1), post it, reply according to the outcome — the `except`
catches a connection failure — and in every one of those paths
`user_data.pop(chat_id, None)` runs afterwards. Returns the new map, the
payload posted, and the reply. -/
def finalize_order (m : SessionMap) (chat_id : Nat) (valid_phone : String)
    (outcome : ReqOutcome) : SessionMap × Option TicketRequest × BotMsg :=
  match lookupSession m chat_id with
  | none => (m, none, .sessionExpired)
  | some cu =>
    let payload : TicketRequest :=
      ⟨cu.event_id, cu.name, chat_id, valid_phone, cu.quantity.getD 1⟩
    let reply :=
      match outcome with
      | .status code => botReplyForStatus code
      | .connFail => .connectionError
    (popSession m chat_id, some payload, reply)

/-! Phone normalization (`bot.validate_phone`). -/

/-- Separator characters libphonenumber discards while parsing. -/
def sepChar (c : Char) : Bool :=
  c == '-' || c == ' ' || c == '(' || c == ')' || c == '.'

/-- Modelled from the spec: the digit extraction step of the external
`phonenumbers` library's parser — separators are dropped, a digit is kept,
and any other character makes the input fail to parse as a number. -/
def stripSeparators : List Char → Option (List Char)
  | [] => some []
  | c :: cs =>
    match stripSeparators cs with
    | none => none
    | some ds =>
      if c.isDigit then some (c :: ds)
      else if sepChar c then some ds
      else none

/-- Modelled from the spec: splitting off Israel's country code from an
international number — digits not starting with 972 are not a valid
IL-region number in this restricted model. -/
def dropCC972 : List Char → Option (List Char)
  | '9' :: '7' :: '2' :: nsn => some nsn
  | _ => none

/-- Modelled from the spec: stripping the optional national trunk `0` of a
domestically written Israeli number. -/
def stripTrunkZero : List Char → List Char
  | '0' :: nsn => nsn
  | nsn => nsn

/-- Modelled from the spec: `phonenumbers.parse(input, "IL")` on the
input's characters — an input with a leading `+` must carry country code
972 and the rest is the national number; otherwise the digits are read as
a national Israeli number, an optional leading trunk `0` being stripped.
Returns the national significant number's digits. -/
def parseILChars : List Char → Option (List Char)
  | '+' :: rest => (stripSeparators rest).bind dropCC972
  | cs => (stripSeparators cs).map stripTrunkZero

/-- Modelled from the spec: `phonenumbers.parse(input, "IL")`. -/
def parseIL (s : String) : Option (List Char) :=
  parseILChars s.data

/-- Modelled from the spec: `phonenumbers.is_valid_number` restricted to
the Israeli mobile plan the spec's examples use — a 9-digit national
number starting with 5. -/
def isValidIL (nsn : List Char) : Bool :=
  nsn.length == 9 && nsn.head? == some '5' && nsn.all Char.isDigit

/-- Embeds `phonenumbers.format_number(..., E164)` for country code 972. -/
def formatE164 (nsn : List Char) : String :=
  String.mk ('+' :: '9' :: '7' :: '2' :: nsn)

/-- Embeds `bot.validate_phone`'s normalization pipeline: parse with default
region IL, reject invalid numbers, and return the single E.164 canonical
string. -/
def normalize (s : String) : Option String :=
  (parseIL s).bind (fun nsn => if isValidIL nsn then some (formatE164 nsn) else none)

/-! Concrete inputs used by the witnesses. -/

/-- A database whose only event is archived. -/
def dbArch : DBState := archive_event (add_event initDB "Gala" "2026-02-02" "TLV" 10 5) 1

/-- Alice asking for two tickets to the capacity-1 event. -/
def reqBig : TicketRequest := ⟨1, "Alice", 11, "+972501234567", 2⟩

/-- Alice's checkout session after she paid. -/
def paidA : StripeSession := ⟨reqA, .paid⟩

/-- A database holding the spec's §8 scenario event: price 10, capacity 5,
nothing sold yet. -/
def dbW : DBState := ⟨[⟨1, "Beach", "2026-06-01", "Haifa", 10, 5, true⟩], [], 2, 1⟩

/-- The §8 scenario event. -/
def evW : Event := ⟨1, "Beach", "2026-06-01", "Haifa", 10, 5, true⟩

/-- Carol's paid session for quantity 3 of the §8 scenario event. -/
def sesW : StripeSession := ⟨⟨1, "Carol", 21, "+972501111111", 3⟩, .paid⟩

/-- A one-entry `user_data` dict: chat 7 mid-dialogue. -/
def sessions0 : SessionMap := [(7, ⟨1, some 2, "Dana"⟩)]

/-! Helper lemmas shared by several claims. -/

/-- Helper: the event `get_event_by_id` returns carries the id that was
looked up. -/
theorem get_event_by_id_id {db : DBState} {eid : Nat} {e : Event}
    (h : get_event_by_id db eid = some e) : e.id = eid := by
  unfold get_event_by_id at h
  simpa using List.find?_some h

/-- Helper: the oversell trace is a run of the system. -/
theorem reachable_sysG : Reachable sysG := by
  have h1 : Step initSys sysA := Step.addEvent initSys "Party" "2026-01-01" "TLV" 10 1
  have h2 : Step sysA sysB := Step.checkoutOk sysA reqA rfl
  have h3 : Step sysB sysC := Step.checkoutOk sysB reqB rfl
  have h4 : Step sysC sysD := Step.paySession sysC 0 (by decide)
  have h5 : Step sysD sysE := Step.paySession sysD 1 (by decide)
  have h6 : Step sysE sysF := Step.fulfillSession sysE 0 (by decide) (fun _ => false)
  have h7 : Step sysF sysG := Step.fulfillSession sysF 1 (by decide) (fun _ => false)
  exact .tail (.tail (.tail (.tail (.tail (.tail (.single h1) h2) h3) h4) h5) h6) h7

/-- C1: the invariant `count(tickets for E) ≤ E.capacity` does NOT hold on
the code — `payment_success` never re-validates capacity, so a reachable
run (two checkout sessions created while capacity still fit, both paid,
both fulfilled) ends with 2 tickets recorded for a capacity-1 event. -/
theorem overselling_state_reachable :
    Reachable sysG
    ∧ (get_event_by_id sysG.db 1).map Event.total_tickets = some 1
    ∧ get_tickets_sold sysG.db 1 = 2 :=
  ⟨reachable_sysG, rfl, rfl⟩

/-- C4 counterexample: in the reachable oversold state the dashboard
reports a negative remaining count (capacity 1, sold 2, remaining -1),
refuting "never negative". -/
theorem remaining_negative_in_reachable_state :
    Reachable sysG ∧ ev1 ∈ sysG.db.events ∧ (dashRow sysG.db ev1).remaining = -1 :=
  ⟨reachable_sysG, by decide, by decide⟩

/-- C4 amended: the dashboard's remaining count equals capacity minus the
currently-issued count, and it is non-negative exactly when the issued
count is within capacity — which oversold reachable states violate. -/
theorem remaining_eq_capacity_sub_sold (db : DBState) (e : Event) :
    (dashRow db e).remaining = (e.total_tickets : Int) - (get_tickets_sold db e.id : Int)
    ∧ (0 ≤ (dashRow db e).remaining ↔ get_tickets_sold db e.id ≤ e.total_tickets) := by
  refine ⟨rfl, ?_⟩
  simp [dashRow, sub_nonneg]

/-- C2 counterexample: an archived event (`is_active = 0`) is NOT rejected
by `create_checkout_session` — the lookup has no active filter, so checkout
succeeds and a payment intent is created for it. -/
theorem archived_event_checkout_succeeds :
    (get_event_by_id dbArch 1).map Event.is_active = some false
    ∧ create_checkout_session dbArch reqA = .ok reqA := by
  refine ⟨rfl, rfl⟩

/-- C2 amended: `create_checkout_session` fails with `NotFound` exactly
when the referenced event does not exist (and then no payment intent is
created); an existing but archived event is not rejected. -/
theorem checkout_notFound_iff_event_missing (db : DBState) (t : TicketRequest) :
    create_checkout_session db t = .notFound ↔ get_event_by_id db t.event_id = none := by
  cases h : get_event_by_id db t.event_id with
  | none => simp [create_checkout_session, h]
  | some e =>
    have hval : create_checkout_session db t
        = if get_tickets_sold db t.event_id + t.quantity > e.total_tickets
          then .oversold else .ok t := by
      unfold create_checkout_session
      rw [h]
    rw [hval]
    constructor
    · intro hcon
      by_cases hcap : get_tickets_sold db t.event_id + t.quantity > e.total_tickets
      · rw [if_pos hcap] at hcon
        exact nomatch hcon
      · rw [if_neg hcap] at hcon
        exact nomatch hcon
    · intro hcon
      exact nomatch hcon

/-- C3: for an existing event, checkout fails with `Oversold` (HTTP 400)
exactly when `sold_count + quantity` exceeds capacity; the bot then shows
the dedicated "not enough tickets" message, which differs from the generic
error; and when the quantity fits, a payment intent carrying the request's
metadata is created. -/
theorem oversold_iff_capacity_exceeded (db : DBState) (t : TicketRequest) (e : Event)
    (he : get_event_by_id db t.event_id = some e) :
    (create_checkout_session db t = .oversold
      ↔ e.total_tickets < get_tickets_sold db t.event_id + t.quantity)
    ∧ (create_checkout_session db t = .oversold →
        botReplyForStatus (httpStatus (create_checkout_session db t)) = .notEnoughTickets
        ∧ BotMsg.notEnoughTickets ≠ BotMsg.genericError)
    ∧ (get_tickets_sold db t.event_id + t.quantity ≤ e.total_tickets →
        create_checkout_session db t = .ok t) := by
  have hval : create_checkout_session db t
      = if get_tickets_sold db t.event_id + t.quantity > e.total_tickets
        then .oversold else .ok t := by
    unfold create_checkout_session
    rw [he]
  rw [hval]
  by_cases h : get_tickets_sold db t.event_id + t.quantity > e.total_tickets
  · rw [if_pos h]
    exact ⟨⟨fun _ => h, fun _ => rfl⟩, fun _ => ⟨rfl, by decide⟩,
      fun hle => absurd h (by omega)⟩
  · rw [if_neg h]
    exact ⟨⟨fun hx => (nomatch hx), fun hlt => absurd hlt h⟩,
      fun hx => (nomatch hx), fun _ => rfl⟩

/-- C3 witness: the capacity-1 event with two tickets requested is
rejected as oversold. -/
theorem oversold_iff_capacity_exceeded_witness :
    create_checkout_session sysA.db reqBig = .oversold :=
  (oversold_iff_capacity_exceeded sysA.db reqBig ev1 rfl).1.mpr (by decide)

/-- C6: a fulfillment callback on a session whose `payment_status` is
anything but `paid` changes nothing: no ticket is inserted and no artifact
is sent. -/
theorem non_paid_intent_issues_nothing (db : DBState) (s : StripeSession)
    (f : Nat → Bool) (h : s.payment_status ≠ .paid) :
    payment_success db s f = (db, []) := by
  simp [payment_success, h]

/-- C6 witness: an unpaid session for Alice leaves the fresh database
untouched. -/
theorem non_paid_intent_issues_nothing_witness :
    payment_success initDB ⟨reqA, .unpaid⟩ (fun _ => false) = (initDB, []) :=
  non_paid_intent_issues_nothing initDB ⟨reqA, .unpaid⟩ (fun _ => false) (by decide)

/-- C7: the code has no replay protection — running `payment_success` a
second time with the same paid session issues the stored quantity again
(1 ticket after the first call, 2 after the replay), contradicting
"consumed at most once". -/
theorem replay_of_paid_session_reissues :
    get_tickets_sold (payment_success sysA.db paidA (fun _ => false)).1 1 = 1
    ∧ get_tickets_sold
        (payment_success (payment_success sysA.db paidA (fun _ => false)).1 paidA
          (fun _ => false)).1 1 = 2 :=
  ⟨rfl, rfl⟩

/-- Helper: with the event found and no database failure, the issuance
loop appends exactly `n` tickets carrying consecutive fresh row ids, bumps
the AUTOINCREMENT counter by `n`, and sends one artifact per ticket. -/
theorem fulfillLoop_noRaise (meta : TicketRequest) (e : Event) (n : Nat) :
    ∀ (i : Nat) (db : DBState) (acc : List Artifact),
      fulfillLoop meta (some e) (fun _ => false) i n db acc
        = ({ db with
              tickets := db.tickets ++ (List.range n).map (fun k =>
                ⟨db.nextTicketId + k, meta.event_id, meta.user_id, meta.user_name,
                  meta.phone_number⟩),
              nextTicketId := db.nextTicketId + n },
            acc ++ (List.range n).map (fun k =>
              ⟨meta.user_id,
                mkCaption (i + k) meta.quantity e.name
                  (toString (db.nextTicketId + k))⟩)) := by
  induction n with
  | zero =>
    intro i db acc
    simp [fulfillLoop]
  | succ n ih =>
    intro i db acc
    simp only [fulfillLoop, add_ticket, Bool.false_eq_true, if_false, ticketIdStr]
    rw [ih]
    simp [List.range_succ_eq_map, List.map_map, Function.comp, Nat.succ_eq_add_one,
      Nat.add_assoc, Nat.add_comm, Nat.add_left_comm]

/-- C8: fulfilling a paid intent of quantity `N` for an existing event
appends exactly `N` tickets with pairwise-distinct fresh identifiers, all
for the stored event; the sold count rises by `N` and the dashboard's
remaining count drops by `N`. -/
theorem fulfillment_issues_exact_quantity (db : DBState) (s : StripeSession) (e : Event)
    (hp : s.payment_status = .paid)
    (he : get_event_by_id db s.meta.event_id = some e) :
    ((payment_success db s (fun _ => false)).1.tickets.drop db.tickets.length).length
        = s.meta.quantity
    ∧ (((payment_success db s (fun _ => false)).1.tickets.drop db.tickets.length).map
        Ticket.id).Nodup
    ∧ (∀ t ∈ (payment_success db s (fun _ => false)).1.tickets.drop db.tickets.length,
        t.event_id = s.meta.event_id)
    ∧ get_tickets_sold (payment_success db s (fun _ => false)).1 s.meta.event_id
        = get_tickets_sold db s.meta.event_id + s.meta.quantity
    ∧ (dashRow (payment_success db s (fun _ => false)).1 e).remaining
        = (dashRow db e).remaining - (s.meta.quantity : Int) := by
  have hps : (payment_success db s (fun _ => false)).1
      = { db with
          tickets := db.tickets ++ (List.range s.meta.quantity).map (fun k =>
            ⟨db.nextTicketId + k, s.meta.event_id, s.meta.user_id, s.meta.user_name,
              s.meta.phone_number⟩),
          nextTicketId := db.nextTicketId + s.meta.quantity } := by
    unfold payment_success
    rw [if_pos hp, he, fulfillLoop_noRaise]
  have hdrop : (payment_success db s (fun _ => false)).1.tickets.drop db.tickets.length
      = (List.range s.meta.quantity).map (fun k =>
          (⟨db.nextTicketId + k, s.meta.event_id, s.meta.user_id, s.meta.user_name,
            s.meta.phone_number⟩ : Ticket)) := by
    rw [hps]
    exact List.drop_left _ _
  have hsold : get_tickets_sold (payment_success db s (fun _ => false)).1 s.meta.event_id
      = get_tickets_sold db s.meta.event_id + s.meta.quantity := by
    rw [hps]
    unfold get_tickets_sold
    rw [show ({ db with
          tickets := db.tickets ++ (List.range s.meta.quantity).map (fun k =>
            (⟨db.nextTicketId + k, s.meta.event_id, s.meta.user_id, s.meta.user_name,
              s.meta.phone_number⟩ : Ticket)),
          nextTicketId := db.nextTicketId + s.meta.quantity } : DBState).tickets
        = db.tickets ++ (List.range s.meta.quantity).map (fun k =>
            (⟨db.nextTicketId + k, s.meta.event_id, s.meta.user_id, s.meta.user_name,
              s.meta.phone_number⟩ : Ticket)) from rfl]
    rw [List.filter_append, List.length_append]
    congr 1
    rw [List.filter_eq_self.mpr]
    · simp
    · intro t ht
      simp only [List.mem_map] at ht
      obtain ⟨k, -, rfl⟩ := ht
      simp
  refine ⟨?_, ?_, ?_, hsold, ?_⟩
  · rw [hdrop]
    simp
  · rw [hdrop, List.map_map]
    refine List.Nodup.map (fun a b hab => ?_) (List.nodup_range _)
    exact Nat.add_left_cancel hab
  · rw [hdrop]
    intro t ht
    simp only [List.mem_map] at ht
    obtain ⟨k, -, rfl⟩ := ht
    rfl
  · have hid : e.id = s.meta.event_id := get_event_by_id_id he
    simp only [dashRow, hid, hsold]
    push_cast
    ring

/-- C8 witness: the spec's §8 scenario — quantity 3 against 5 remaining
slots issues 3 tickets and leaves remaining 2. -/
theorem fulfillment_issues_exact_quantity_witness :
    get_tickets_sold (payment_success dbW sesW (fun _ => false)).1 1 = 3
    ∧ (dashRow dbW evW).remaining = 5
    ∧ (dashRow (payment_success dbW sesW (fun _ => false)).1 evW).remaining = 2 := by
  have h := fulfillment_issues_exact_quantity dbW sesW evW rfl rfl
  refine ⟨h.2.2.2.1, by decide, ?_⟩
  rw [h.2.2.2.2]
  decide

/-- Helper: the issuance loop when every insert raises — the database is
untouched while one "Ticket ID: #False" artifact per unit is still sent. -/
theorem fulfillLoop_allRaise (meta : TicketRequest) (e : Event) (n : Nat) :
    ∀ (i : Nat) (db : DBState) (acc : List Artifact),
      fulfillLoop meta (some e) (fun _ => true) i n db acc
        = (db, acc ++ (List.range n).map (fun k =>
            ⟨meta.user_id, mkCaption (i + k) meta.quantity e.name "False"⟩)) := by
  induction n with
  | zero =>
    intro i db acc
    simp [fulfillLoop]
  | succ n ih =>
    intro i db acc
    simp only [fulfillLoop, add_ticket, if_true, ticketIdStr]
    rw [ih]
    simp [List.range_succ_eq_map, List.map_map, Function.comp, Nat.succ_eq_add_one,
      Nat.add_assoc, Nat.add_comm, Nat.add_left_comm]

/-- C10: `add_ticket` is total over its error branch — it either returns
the fresh row id having appended exactly the new ticket, or returns the
Python-`False` marker leaving the database unchanged; and a fulfillment
whose inserts all fail still sends the buyer one confirmation per unit
with the `False` value embedded where the ticket id belongs. -/
theorem add_ticket_total_or_false (db : DBState) (event_id user_id : Nat)
    (user_name phone_number : String) (dbRaises : Bool) :
    (((add_ticket db event_id user_id user_name phone_number dbRaises).1
          = .rowId db.nextTicketId
        ∧ (add_ticket db event_id user_id user_name phone_number dbRaises).2.tickets
          = db.tickets ++ [⟨db.nextTicketId, event_id, user_id, user_name, phone_number⟩])
      ∨ ((add_ticket db event_id user_id user_name phone_number dbRaises).1 = .dbFalse
        ∧ (add_ticket db event_id user_id user_name phone_number dbRaises).2 = db))
    ∧ (∀ (s : StripeSession) (e : Event), s.payment_status = .paid →
        get_event_by_id db s.meta.event_id = some e →
        (payment_success db s (fun _ => true)).1 = db
        ∧ (payment_success db s (fun _ => true)).2
          = (List.range s.meta.quantity).map (fun i =>
              ⟨s.meta.user_id, mkCaption i s.meta.quantity e.name "False"⟩)) := by
  constructor
  · cases dbRaises with
    | false => exact Or.inl ⟨rfl, rfl⟩
    | true => exact Or.inr ⟨rfl, rfl⟩
  · intro s e hp he
    unfold payment_success
    rw [if_pos hp, he, fulfillLoop_allRaise]
    exact ⟨rfl, by simp⟩

/-- Helper: after `user_data.pop(chat_id, None)` the purchaser's entry is
gone. -/
theorem lookupSession_popSession (m : SessionMap) (k : Nat) :
    lookupSession (popSession m k) k = none := by
  simp only [lookupSession, popSession, Option.map_eq_none']
  rw [List.find?_eq_none]
  intro p hp
  have h2 := (List.mem_filter.mp hp).2
  simp only [bne_iff_ne, ne_eq] at h2
  simp [h2]

/-- C9: whatever the checkout outcome — payment link, 400 Oversold, other
server error, or a connection failure — `finalize_order` hands the Broker
the session's tuple (event id, name, purchaser id, phone, quantity
defaulting to 1) and deletes the purchaser's session entry, so the
dialogue is one-shot. -/
theorem dialogue_session_deleted_every_outcome (m : SessionMap) (chat_id : Nat)
    (phone : String) (outcome : ReqOutcome) (cu : BotSession)
    (h : lookupSession m chat_id = some cu) :
    lookupSession (finalize_order m chat_id phone outcome).1 chat_id = none
    ∧ (finalize_order m chat_id phone outcome).2.1
        = some ⟨cu.event_id, cu.name, chat_id, phone, cu.quantity.getD 1⟩ := by
  unfold finalize_order
  rw [h]
  exact ⟨lookupSession_popSession m chat_id, rfl⟩

/-- C9 witness: Dana's session (chat 7) is deleted and her tuple handed
over when the server answers 400. -/
theorem dialogue_session_deleted_witness :
    lookupSession (finalize_order sessions0 7 "+972501234567" (.status 400)).1 7 = none
    ∧ (finalize_order sessions0 7 "+972501234567" (.status 400)).2.1
        = some ⟨1, "Dana", 7, "+972501234567", 2⟩ :=
  dialogue_session_deleted_every_outcome sessions0 7 "+972501234567" (.status 400)
    ⟨1, some 2, "Dana"⟩ rfl

/-- Helper: a list of digit characters passes the separator-stripping step
unchanged. -/
theorem stripSeparators_of_digits (l : List Char) (h : l.all Char.isDigit = true) :
    stripSeparators l = some l := by
  induction l with
  | nil => rfl
  | cons c cs ih =>
    simp only [List.all_cons, Bool.and_eq_true] at h
    simp [stripSeparators, ih h.2, h.1]

/-- Helper: a successful normalization returns the E.164 rendering of some
valid national number. -/
theorem normalize_canonical {x y : String} (h : normalize x = some y) :
    ∃ nsn, isValidIL nsn = true ∧ y = formatE164 nsn := by
  unfold normalize at h
  cases hp : parseIL x with
  | none =>
    rw [hp] at h
    exact nomatch h
  | some nsn =>
    rw [hp, Option.some_bind] at h
    by_cases hv : isValidIL nsn = true
    · rw [if_pos hv] at h
      exact ⟨nsn, hv, (Option.some_injective _ h).symm⟩
    · rw [if_neg hv] at h
      exact nomatch h

/-- Helper: a canonical E.164 output normalizes to itself. -/
theorem normalize_formatE164 (nsn : List Char) (hv : isValidIL nsn = true) :
    normalize (formatE164 nsn) = some (formatE164 nsn) := by
  have hall : ('9' :: '7' :: '2' :: nsn).all Char.isDigit = true := by
    have hd : nsn.all Char.isDigit = true := by
      simp only [isValidIL, Bool.and_eq_true] at hv
      exact hv.2
    simp [List.all_cons, hd]
  have hparse : parseIL (formatE164 nsn) = some nsn := by
    show (stripSeparators ('9' :: '7' :: '2' :: nsn)).bind dropCC972 = some nsn
    rw [stripSeparators_of_digits _ hall]
    rfl
  unfold normalize
  rw [hparse, Option.some_bind, if_pos hv]

/-- C5: phone normalization is idempotent — a canonical output normalizes
to itself — and the three equivalent formattings of the same Israeli
mobile number all normalize to the single canonical `+972501234567`. -/
theorem normalize_idempotent_and_canonical :
    (∀ x y : String, normalize x = some y → normalize y = some y)
    ∧ normalize "0501234567" = some "+972501234567"
    ∧ normalize "+972501234567" = some "+972501234567"
    ∧ normalize "050-123-4567" = some "+972501234567" := by
  refine ⟨?_, by decide, by decide, by decide⟩
  intro x y h
  obtain ⟨nsn, hv, rfl⟩ := normalize_canonical h
  exact normalize_formatE164 nsn hv

end PartyFlow
